import Mathlib

set_option maxRecDepth 8000

/-!
Shallow embedding of the pbxproj-editing scripts of this repository.

Manifests are modelled as `List Char` (the raw file text).  Python string
primitives are modelled directly:

* `str.find(sub)` / `str.find(sub, start)`  →  `pyFind` / `pyFindFrom`
* `sub in s`                                →  `containsSubB s sub`
* slicing and `+`-splicing                  →  `List.take`/`List.drop`/`++`
* `re.sub(pat, repl, s)` for the concrete patterns of
  `src/JoyLabsNative/fix_xcode_project.py`  →  `reSub` with one deterministic
  matcher per pattern (each pattern is first-match-wins, scanning left to
  right, non-overlapping, exactly as `re.sub` does; none of the patterns can
  match the empty string, and their greedy pieces never need backtracking,
  so a deterministic matcher is faithful).
-/

/-- Bool prefix test on char lists (`l` a prefix of `s`). -/
def isPrefixOfB : List Char → List Char → Bool
  | [], _ => true
  | _ :: _, [] => false
  | l :: ls, c :: cs => l == c && isPrefixOfB ls cs

/-- Worker for `pyFind`: first index `≥ i` (counting from the start offset
`i`) at which `sub` occurs in the remaining text. -/
def findSubAux (sub : List Char) : List Char → Nat → Option Nat
  | [], i => if isPrefixOfB sub [] then some i else none
  | c :: cs, i => if isPrefixOfB sub (c :: cs) then some i else findSubAux sub cs (i + 1)

/-- Python `s.find(sub)`: index of the first occurrence, `none` for `-1`. -/
def pyFind (s sub : List Char) : Option Nat := findSubAux sub s 0

/-- Python `s.find(sub, start)`. -/
def pyFindFrom (s sub : List Char) (start : Nat) : Option Nat :=
  (pyFind (s.drop start) sub).map (fun i => i + start)

/-- Python `sub in s`. -/
def containsSubB (s sub : List Char) : Bool := (pyFind s sub).isSome

/-- Worker for `countSub` (fuel-driven left-to-right scan). -/
def countSubAux (sub : List Char) : Nat → List Char → Nat
  | 0, _ => 0
  | _ + 1, [] => 0
  | fuel + 1, c :: rest =>
    if isPrefixOfB sub (c :: rest) then
      1 + countSubAux sub fuel (rest.drop (sub.length - 1))
    else countSubAux sub fuel rest

/-- Number of non-overlapping occurrences of a (nonempty) `sub` in `s`,
scanning left to right (Python `s.count(sub)`). -/
def countSub (s sub : List Char) : Nat := countSubAux sub s.length s

/-- Python `s[:i] + ins + s[i:]`. -/
def spliceAt (s : List Char) (i : Nat) (ins : List Char) : List Char :=
  s.take i ++ ins ++ s.drop i

/-- Python `s[i:j]` (for `0 ≤ i`, `0 ≤ j`). -/
def sliceBetween (s : List Char) (i j : Nat) : List Char := (s.take j).drop i

/-- A compiled substitution pattern: at a given position it either fails or
matches, yielding the replacement text to emit and the remaining input after
the whole match.  All matchers below consume at least one character when they
succeed. -/
abbrev SubMatcher := List Char → Option (List Char × List Char)

/-- Worker for `reSub`.  The fuel starts at the length of the input and
dominates the length of the remaining input throughout, so the scan is never
cut short. -/
def reSubAux (t : SubMatcher) : Nat → List Char → List Char
  | 0, s => s
  | _ + 1, [] => []
  | fuel + 1, c :: rest =>
    match t (c :: rest) with
    | some (emit, r) => emit ++ reSubAux t fuel r
    | none => c :: reSubAux t fuel rest

/-- Python `re.sub(pattern, replacement, s)` for the concrete patterns used
by the scripts: leftmost, non-overlapping matches, scanning left to right. -/
def reSub (t : SubMatcher) (s : List Char) : List Char := reSubAux t s.length s

/-- `t` matches at no position of `s` (including at the very end). -/
def noMatchB (t : SubMatcher) : List Char → Bool
  | [] => (t []).isNone
  | c :: rest => (t (c :: rest)).isNone && noMatchB t rest

/-- Regex class `[A-F0-9]` (uppercase hex, as in the removal patterns). -/
def isHexUp (c : Char) : Bool := (('0' ≤ c) && (c ≤ '9')) || (('A' ≤ c) && (c ≤ 'F'))

/-- Python regex class `\s`. -/
def isPySpace (c : Char) : Bool :=
  (c == ' ') || (c == '\t') || (c == '\n') || (c == '\r') || (c == '\x0b') || (c == '\x0c')

/-- Match a literal string, returning the remainder. -/
def matchLit : List Char → List Char → Option (List Char)
  | [], s => some s
  | _ :: _, [] => none
  | l :: ls, c :: cs => if l == c then matchLit ls cs else none

/-- Match exactly `n` uppercase-hex characters (`[A-F0-9]{n}`). -/
def matchHexN : Nat → List Char → Option (List Char)
  | 0, s => some s
  | _ + 1, [] => none
  | n + 1, c :: cs => if isHexUp c then matchHexN n cs else none

/-- Greedy optional single character (`x?`). -/
def matchOptChar (x : Char) : List Char → List Char
  | [] => []
  | c :: cs => if c == x then cs else c :: cs

/-- Greedy whitespace run (`\s*`). -/
def matchWs : List Char → List Char
  | [] => []
  | c :: cs => if isPySpace c then matchWs cs else c :: cs

/-- Skip to the next `}` (the maximal run of `[^}]`). -/
def skipNonBrace : List Char → List Char
  | [] => []
  | c :: cs => if c == '\x7d' then c :: cs else skipNonBrace cs

/-- Expect a `}` and consume it. -/
def expectBrace : List Char → Option (List Char)
  | [] => none
  | c :: cs => if c == '\x7d' then some cs else none

/-- Regex `[^}]+\}`: one or more non-brace characters (greedy), then `}`. -/
def matchBraceBody : List Char → Option (List Char)
  | [] => none
  | c :: cs => if c == '\x7d' then none else expectBrace (skipNonBrace cs)

def litSp : List Char := (" /* ").toList

def litBFhead : List Char := (" in Sources */ = \x7bisa = PBXBuildFile; fileRef = ").toList

def litBFtail : List Char := (" */; \x7d").toList

def litFRhead : List Char := (" */ = \x7bisa = PBXFileReference; ").toList

def litStarClose : List Char := (" */").toList

def litInSourcesClose : List Char := (" in Sources */").toList

def litCloseParenSemi : List Char := (");").toList

/-- First removal pattern of `fix_xcode_project`, for a file name `fn`:
`[A-F0-9]{24} /\* fn in Sources \*/ = \{isa = PBXBuildFile; fileRef =
[A-F0-9]{24} /\* fn \*/; \};?\n?`, replaced by the empty string. -/
def pat1Try (fn : List Char) : SubMatcher := fun s =>
  (matchHexN 24 s).bind fun s1 =>
  (matchLit litSp s1).bind fun s2 =>
  (matchLit fn s2).bind fun s3 =>
  (matchLit litBFhead s3).bind fun s4 =>
  (matchHexN 24 s4).bind fun s5 =>
  (matchLit litSp s5).bind fun s6 =>
  (matchLit fn s6).bind fun s7 =>
  (matchLit litBFtail s7).bind fun s8 =>
  some ([], matchOptChar '\n' (matchOptChar ';' s8))

/-- Second removal pattern: `[A-F0-9]{24} /\* fn \*/ = \{isa =
PBXFileReference; [^}]+\};?\n?`, replaced by the empty string. -/
def pat2Try (fn : List Char) : SubMatcher := fun s =>
  (matchHexN 24 s).bind fun s1 =>
  (matchLit litSp s1).bind fun s2 =>
  (matchLit fn s2).bind fun s3 =>
  (matchLit litFRhead s3).bind fun s4 =>
  (matchBraceBody s4).bind fun s5 =>
  some ([], matchOptChar '\n' (matchOptChar ';' s5))

/-- Third removal pattern: `[A-F0-9]{24} /\* fn \*/,?\n?\s*`, replaced by
the empty string. -/
def pat3Try (fn : List Char) : SubMatcher := fun s =>
  (matchHexN 24 s).bind fun s1 =>
  (matchLit litSp s1).bind fun s2 =>
  (matchLit fn s2).bind fun s3 =>
  (matchLit litStarClose s3).bind fun s4 =>
  some ([], matchWs (matchOptChar '\n' (matchOptChar ',' s4)))

/-- Fourth removal pattern: `[A-F0-9]{24} /\* fn in Sources \*/,?\n?\s*`,
replaced by the empty string. -/
def pat4Try (fn : List Char) : SubMatcher := fun s =>
  (matchHexN 24 s).bind fun s1 =>
  (matchLit litSp s1).bind fun s2 =>
  (matchLit fn s2).bind fun s3 =>
  (matchLit litInSourcesClose s3).bind fun s4 =>
  some ([], matchWs (matchOptChar '\n' (matchOptChar ',' s4)))

/-- Split a maximal whitespace prefix off a string. -/
def takeWs : List Char → List Char × List Char
  | [] => ([], [])
  | c :: cs =>
    if isPySpace c then
      let p := takeWs cs
      (c :: p.1, p.2)
    else ([], c :: cs)

/-- The trailing-comma cleanup `re.sub(r',(\s*\);)', r'\1', content)`:
a comma followed by whitespace and `);` is replaced by the whitespace and
`);` alone (scanning resumes after the whole match). -/
def cleanupTry : SubMatcher := fun s =>
  match s with
  | [] => none
  | c :: cs =>
    if c == ',' then
      let p := takeWs cs
      match matchLit litCloseParenSemi p.2 with
      | some r => some (p.1 ++ litCloseParenSemi, r)
      | none => none
    else none

/-- The `files_to_remove` list of `src/JoyLabsNative/fix_xcode_project.py`. -/
def files_to_remove : List (List Char) :=
  [("CatalogSyncService.swift").toList,
   ("SquareSyncCoordinator.swift").toList,
   ("CatalogDatabaseManager.swift").toList,
   ("CatalogDatabaseSchema.swift").toList,
   ("ResilientDatabaseManager.swift").toList,
   ("MockDatabaseManager.swift").toList,
   ("EnhancedDatabaseManager.swift").toList]

/-- The substitutions applied by `fix_xcode_project`, in source order: for
each file name the four removal patterns, then the single trailing-comma
cleanup at the very end. -/
def triesFor (files : List (List Char)) : List SubMatcher :=
  files.foldr (fun fn acc => pat1Try fn :: pat2Try fn :: pat3Try fn :: pat4Try fn :: acc)
    [cleanupTry]

/-- Apply a list of substitutions left to right. -/
def runTries (ts : List SubMatcher) (c : List Char) : List Char :=
  ts.foldl (fun s t => reSub t s) c

/-- The text transformation of `fix_xcode_project`, parameterised by the
list of labels to remove (the source iterates `for filename in
files_to_remove` and then runs the cleanup once). -/
def fix_xcode_project_with (files : List (List Char)) (c : List Char) : List Char :=
  runTries (triesFor files) c

/-- The text transformation performed by `fix_xcode_project` on the manifest
contents (read → substitutions → write). -/
def fix_xcode_project (c : List Char) : List Char :=
  fix_xcode_project_with files_to_remove c

/-!
Embedding of `src/add_history_view.py` (`add_history_view_to_xcode`).

The script reads the manifest, performs a sequence of `str.find`-guided
splices, writes the result back and returns `True`; the three early `find`
failures (project group / children array) return `False` without writing.
`none` models a `False` return (nothing written), `some out` models a
successful run that wrote `out`.
-/

def childrenLitStr : List Char := ("children = (").toList

def beginFRMarker : List Char := ("/* Begin PBXFileReference section */").toList

def endFRMarker : List Char := ("/* End PBXFileReference section */").toList

def beginBFMarker : List Char := ("/* Begin PBXBuildFile section */").toList

def endBFMarker : List Char := ("/* End PBXBuildFile section */").toList

def mainGroupPat : List Char :=
  ("A1B2C3D4E5F6789012345689 /* JoyLabsNative */ = \x7b").toList

def scanviewChildRef : List Char :=
  ("A1B2C3D4E5F6789012345854 /* ScanView.swift */,").toList

def scanviewSourceRef : List Char :=
  ("A1B2C3D4E5F6789012345853 /* ScanView.swift in Sources */,").toList

def sourcesPat : List Char := ("/* Sources */ = \x7b").toList

def filesLit : List Char := ("files = (").toList

/-- The hard-coded `file_uuid = "A1B2C3D4E5F6789012345855"` of the script. -/
def hvFileUuid : List Char := ("A1B2C3D4E5F6789012345855").toList

/-- The hard-coded `build_uuid = "A1B2C3D4E5F6789012345856"` of the script. -/
def hvBuildUuid : List Char := ("A1B2C3D4E5F6789012345856").toList

/-- The `file_ref` entry text the script builds for HistoryView.swift. -/
def hvFileRef : List Char :=
  ("\t\tA1B2C3D4E5F6789012345855 /* HistoryView.swift */ = \x7bisa = PBXFileReference; lastKnownFileType = sourcecode.swift; path = \"JoyLabsNative/Views/HistoryView.swift\"; sourceTree = \"<group>\"; \x7d;").toList

/-- The `build_ref` entry text the script builds for HistoryView.swift. -/
def hvBuildRef : List Char :=
  ("\t\tA1B2C3D4E5F6789012345856 /* HistoryView.swift in Sources */ = \x7bisa = PBXBuildFile; fileRef = A1B2C3D4E5F6789012345855 /* HistoryView.swift */; \x7d;").toList

/-- The group-children entry the script splices in after the ScanView child. -/
def hvChildEntry : List Char :=
  ("\n\t\t\t\tA1B2C3D4E5F6789012345855 /* HistoryView.swift */,").toList

/-- The build-phase files entry the script splices in after the ScanView one. -/
def hvSourceEntry : List Char :=
  ("\n\t\t\t\tA1B2C3D4E5F6789012345856 /* HistoryView.swift in Sources */,").toList

/-- The content transformation of `add_history_view_to_xcode`: `none` models
the `return False` paths (nothing written), `some out` models a run that
wrote `out` and returned `True`. -/
def add_history_view_to_xcode (content : List Char) : Option (List Char) :=
  match pyFind content mainGroupPat with
  | none => none
  | some gs =>
    match pyFindFrom content childrenLitStr gs with
    | none => none
    | some cs =>
      match pyFindFrom content litCloseParenSemi cs with
      | none => none
      | some _ =>
        let c1 :=
          match pyFindFrom content scanviewChildRef cs with
          | some p => spliceAt content (p + scanviewChildRef.length) hvChildEntry
          | none => content
        let c2 :=
          match pyFind c1 endFRMarker with
          | some p => spliceAt c1 p (hvFileRef ++ ['\n'])
          | none => c1
        let c3 :=
          match pyFind c2 endBFMarker with
          | some p => spliceAt c2 p (hvBuildRef ++ ['\n'])
          | none => c2
        let c4 :=
          match pyFind c3 sourcesPat with
          | none => c3
          | some sp =>
            match pyFindFrom c3 filesLit sp with
            | none => c3
            | some fs =>
              match pyFindFrom c3 litCloseParenSemi fs with
              | none => c3
              | some _ =>
                match pyFindFrom c3 scanviewSourceRef fs with
                | some p => spliceAt c3 (p + scanviewSourceRef.length) hvSourceEntry
                | none => c3
        some c4

/-- One whole-script run of `add_history_view.py` at the file level: the
input is the manifest file on disk (`none` when the file does not exist);
the output is the returned boolean together with the file after the run.
The script writes only on the `True` path. -/
def add_history_view_run (disk : Option (List Char)) : Bool × Option (List Char) :=
  match disk with
  | none => (false, none)
  | some c =>
    match add_history_view_to_xcode c with
    | none => (false, some c)
    | some out => (true, some out)

/-- The `__main__` block of `add_history_view.py` calls the function and
discards its result, so the process always terminates normally with exit
code 0 (no exception can escape the pure string surgery). -/
def add_history_view_main (disk : Option (List Char)) : Nat :=
  let _ := add_history_view_run disk
  0

/-- The `__main__` block of `add_modal_files.py` (its
`add_files_to_xcode_project`): `sys.exit(0 if success else 1)`, given the
boolean outcome of the copy operations. -/
def add_modal_files_main (success : Bool) : Nat :=
  if success then 0 else 1

/-!
Embedding of `src/add_files_to_xcode.py` (`add_files_to_xcode_project`).

The script draws fresh `uuid.uuid4()` strings; randomness is modelled by
explicit streams: `us n` is the value of the n-th `uuid.uuid4()` call made
while generating keys (two per file, in file order), and `ts i j` the value
drawn inside the generator expression of loop iteration `i` when testing
element `j` of `files_to_add`.  `AFResult.fail` models a `return False`,
`AFResult.crash` the uncaught `StopIteration` from `next()` on an empty
generator, `AFResult.ok out` a completed run that wrote `out`.
-/

def files_to_add : List (List Char) :=
  [("JoyLabsNative/Core/Database/CatalogTableDefinitions.swift").toList,
   ("JoyLabsNative/Core/Database/CatalogTableCreator.swift").toList,
   ("JoyLabsNative/Core/Database/CatalogObjectInserters.swift").toList]

/-- Python `os.path.basename` for forward-slash paths. -/
def basenameOf (p : List Char) : List Char :=
  p.foldl (fun acc c => if c == '/' then [] else acc ++ [c]) []

/-- Python `u.replace('-', '')`. -/
def stripDash (u : List Char) : List Char := u.filter (fun c => !(c == '-'))

/-- Python `str.upper` on a single ASCII character (uuid strings are
ASCII). -/
def charUpper (c : Char) : Char :=
  if ('a' ≤ c) ∧ (c ≤ 'z') then Char.ofNat (c.toNat - 32) else c

/-- Key generation of the script:
`str(uuid.uuid4()).replace('-', '').upper()[:24]`. -/
def genKey (u : List Char) : List Char := ((stripDash u).map charUpper).take 24

/-- The `file_ref` entry text built for one file. -/
def afFileRefEntry (u fname : List Char) : List Char :=
  ("\t\t").toList ++ u ++ (" /* ").toList ++ fname ++
  (" */ = \x7bisa = PBXFileReference; lastKnownFileType = sourcecode.swift; path = ").toList ++
  fname ++ ("; sourceTree = \"<group>\"; \x7d;").toList

/-- The `build_ref` entry text built for one file. -/
def afBuildEntry (bu u fname : List Char) : List Char :=
  ("\t\t").toList ++ bu ++ (" /* ").toList ++ fname ++
  (" in Sources */ = \x7bisa = PBXBuildFile; fileRef = ").toList ++ u ++
  (" /* ").toList ++ fname ++ (" */; \x7d;").toList

/-- The first loop of the script: builds `new_entries` (interleaved file
reference and build file entries) and `file_refs` (the generated file keys),
drawing two uuids per file. -/
def afGenAux (us : Nat → List Char) : List (List Char) → Nat → List (List Char) × List (List Char)
  | [], _ => ([], [])
  | f :: fs, i =>
    let fname := basenameOf f
    let fu := genKey (us (2 * i))
    let bu := genKey (us (2 * i + 1))
    let rest := afGenAux us fs (i + 1)
    (afFileRefEntry fu fname :: afBuildEntry bu fu fname :: rest.1, fu :: rest.2)

/-- The generator expression
`(f for f in files_to_add if file_uuid in str(uuid.uuid4()))` together with
`next`: scans `files_to_add`, drawing a fresh uuid (`ts j`) per tested
element; `none` models the `StopIteration` that `next` raises when every
test fails. -/
def genLookupGo (key : List Char) (ts : Nat → List Char) : List (List Char) → Nat → Option (List Char)
  | [], _ => none
  | f :: fs, j => if containsSubB (ts j) key then some f else genLookupGo key ts fs (j + 1)

/-- The children entry appended for one generated key. -/
def afChildEntry (u fname : List Char) : List Char :=
  ("\n\t\t\t\t").toList ++ u ++ (" /* ").toList ++ fname ++ (" */,").toList

/-- The second loop of the script (over `file_refs`), appending one children
entry per key to the accumulated children content; `none` models the
uncaught `StopIteration`. -/
def afChildrenLoop (ts : Nat → Nat → List Char) : List (List Char) → Nat → List Char → Option (List Char)
  | [], _, acc => some acc
  | fu :: fus, i, acc =>
    match genLookupGo fu (ts i) files_to_add 0 with
    | none => none
    | some f =>
      let fname := if f.isEmpty then ("Unknown").toList else basenameOf f
      afChildrenLoop ts fus (i + 1) (acc ++ afChildEntry fu fname)

/-- Outcome of a run of `add_files_to_xcode_project`. -/
inductive AFResult where
  | fail : AFResult
  | crash : AFResult
  | ok : List Char → AFResult
deriving DecidableEq

def dbGroupPat : List Char := ("/* Database */ = \x7b").toList

def pbxFRLit : List Char := ("PBXFileReference").toList

def pbxBFLit : List Char := ("PBXBuildFile").toList

/-- `content[:b] + (content[b:e] + extra) + content[e:]`. -/
def sectionAppend (c : List Char) (b e : Nat) (extra : List Char) : List Char :=
  c.take b ++ (sliceBetween c b e ++ extra) ++ c.drop e

/-- `for entry in new_entries: if key in entry: section += '\n' + entry`. -/
def entriesJoined (entries : List (List Char)) (key : List Char) : List Char :=
  (entries.filter (fun e => containsSubB e key)).foldl (fun a e => a ++ '\n' :: e) []

/-- The content transformation of `add_files_to_xcode_project`, given the
manifest contents and the uuid streams. -/
def add_files_to_xcode_project (content : List Char) (us : Nat → List Char)
    (ts : Nat → Nat → List Char) : AFResult :=
  let gen := afGenAux us files_to_add 0
  match pyFind content dbGroupPat with
  | none => .fail
  | some gs =>
    match pyFindFrom content childrenLitStr gs with
    | none => .fail
    | some cs =>
      match pyFindFrom content litCloseParenSemi cs with
      | none => .fail
      | some ce =>
        match afChildrenLoop ts gen.2 0 (sliceBetween content cs ce) with
        | none => .crash
        | some childrenContent =>
          let c1 := content.take cs ++ childrenContent ++ content.drop ce
          let c2 :=
            match pyFind c1 beginFRMarker, pyFind c1 endFRMarker with
            | some b, some e => sectionAppend c1 b e (entriesJoined gen.1 pbxFRLit)
            | _, _ => c1
          let c3 :=
            match pyFind c2 beginBFMarker, pyFind c2 endBFMarker with
            | some b, some e => sectionAppend c2 b e (entriesJoined gen.1 pbxBFLit)
            | _, _ => c2
          .ok c3

/-- The `__main__` block of `add_files_to_xcode.py` calls the function and
discards its result; the process exit code is 0 unless the uncaught
`StopIteration` escapes (then Python exits with a traceback, non-zero). -/
def add_files_main (content : List Char) (us : Nat → List Char)
    (ts : Nat → Nat → List Char) : Nat :=
  match add_files_to_xcode_project content us ts with
  | .crash => 1
  | _ => 0

/-- The characters that occur in the hex part of `str(uuid.uuid4())`. -/
def lowerHexChars : List Char := ("0123456789abcdef").toList

def isLowerHexDigit (c : Char) : Bool := lowerHexChars.contains c

/-- Shape of `str(uuid.uuid4())`: five lowercase-hex blocks of lengths
8-4-4-4-12 joined by dashes (36 characters in total). -/
def uuid4Format (u : List Char) : Prop :=
  ∃ a b c d e : List Char,
    u = a ++ '-' :: (b ++ '-' :: (c ++ '-' :: (d ++ '-' :: e))) ∧
    a.length = 8 ∧ b.length = 4 ∧ c.length = 4 ∧ d.length = 4 ∧ e.length = 12 ∧
    (a ++ b ++ c ++ d ++ e).all isLowerHexDigit = true

/-!
Concrete manifests used to instantiate and refute the claims.
-/

/-- A manifest holding a file-reference node for `CatalogSyncService.swift`
whose key is also referenced from a group children array under a different
annotation comment (`Legacy`). -/
def mRefOtherLabel : List Char := (
  "/* Begin PBXFileReference section */\n" ++
  "\t\tAAAAAAAAAAAAAAAA00000001 /* CatalogSyncService.swift */ = \x7bisa = PBXFileReference; path = CatalogSyncService.swift; \x7d;\n" ++
  "/* End PBXFileReference section */\n" ++
  "\t\tchildren = (\n" ++
  "\t\t\tAAAAAAAAAAAAAAAA00000001 /* Legacy */,\n" ++
  "\t\t);\n").toList

/-- The node definition of the previous manifest. -/
def mRefOtherLabelNode : List Char :=
  ("AAAAAAAAAAAAAAAA00000001 /* CatalogSyncService.swift */ = \x7b").toList

/-- The children-array reference of the previous manifest (with the
non-matching `Legacy` annotation). -/
def mRefOtherLabelChild : List Char :=
  ("AAAAAAAAAAAAAAAA00000001 /* Legacy */").toList

/-- A well-formed manifest: `CatalogSyncService.swift` (keys A1/B1) and
`B.swift` (keys A2/B2) each have a build-file node, a file-reference node, a
children entry and a build-phase files entry, all annotated with the
matching labels. -/
def mWellFormed : List Char := (
  "/* Begin PBXBuildFile section */\n" ++
  "\t\tB100000000000000000000AA /* CatalogSyncService.swift in Sources */ = \x7bisa = PBXBuildFile; fileRef = A100000000000000000000AA /* CatalogSyncService.swift */; \x7d;\n" ++
  "\t\tB200000000000000000000AA /* B.swift in Sources */ = \x7bisa = PBXBuildFile; fileRef = A200000000000000000000AA /* B.swift */; \x7d;\n" ++
  "/* End PBXBuildFile section */\n" ++
  "/* Begin PBXFileReference section */\n" ++
  "\t\tA100000000000000000000AA /* CatalogSyncService.swift */ = \x7bisa = PBXFileReference; path = CatalogSyncService.swift; \x7d;\n" ++
  "\t\tA200000000000000000000AA /* B.swift */ = \x7bisa = PBXFileReference; path = B.swift; \x7d;\n" ++
  "/* End PBXFileReference section */\n" ++
  "\t\t\tchildren = (\n" ++
  "\t\t\t\tA100000000000000000000AA /* CatalogSyncService.swift */,\n" ++
  "\t\t\t\tA200000000000000000000AA /* B.swift */,\n" ++
  "\t\t\t);\n" ++
  "\t\t\tfiles = (\n" ++
  "\t\t\t\tB100000000000000000000AA /* CatalogSyncService.swift in Sources */,\n" ++
  "\t\t\t\tB200000000000000000000AA /* B.swift in Sources */,\n" ++
  "\t\t\t);\n").toList

def keyA1 : List Char := ("A100000000000000000000AA").toList

def keyB1 : List Char := ("B100000000000000000000AA").toList

def keyA2 : List Char := ("A200000000000000000000AA").toList

def keyB2 : List Char := ("B200000000000000000000AA").toList

/-- A manifest with the JoyLabsNative group, its children array, both
section end markers and a Sources build phase with a files array, but
without the ScanView anchor entries the add script splices after. -/
def mNoAnchors : List Char := (
  "A1B2C3D4E5F6789012345689 /* JoyLabsNative */ = \x7b\n" ++
  "\t\t\tchildren = (\n" ++
  "\t\t\t);\n" ++
  "/* Begin PBXFileReference section */\n" ++
  "/* End PBXFileReference section */\n" ++
  "/* Begin PBXBuildFile section */\n" ++
  "/* End PBXBuildFile section */\n" ++
  "\t\tF100000000000000000000AA /* Sources */ = \x7b\n" ++
  "\t\t\tfiles = (\n" ++
  "\t\t\t);\n").toList

/-- A fully anchored manifest: the JoyLabsNative group contains the ScanView
child entry, both sections carry their markers and ScanView nodes, and the
Sources build phase files array contains the ScanView entry. -/
def mAnchored : List Char := (
  "A1B2C3D4E5F6789012345689 /* JoyLabsNative */ = \x7b\n" ++
  "\t\t\tchildren = (\n" ++
  "\t\t\t\tA1B2C3D4E5F6789012345854 /* ScanView.swift */,\n" ++
  "\t\t\t);\n" ++
  "/* Begin PBXFileReference section */\n" ++
  "\t\tA1B2C3D4E5F6789012345854 /* ScanView.swift */ = \x7bisa = PBXFileReference; path = ScanView.swift; \x7d;\n" ++
  "/* End PBXFileReference section */\n" ++
  "/* Begin PBXBuildFile section */\n" ++
  "\t\tA1B2C3D4E5F6789012345853 /* ScanView.swift in Sources */ = \x7bisa = PBXBuildFile; fileRef = A1B2C3D4E5F6789012345854 /* ScanView.swift */; \x7d;\n" ++
  "/* End PBXBuildFile section */\n" ++
  "\t\tF100000000000000000000AA /* Sources */ = \x7b\n" ++
  "\t\t\tfiles = (\n" ++
  "\t\t\t\tA1B2C3D4E5F6789012345853 /* ScanView.swift in Sources */,\n" ++
  "\t\t\t);\n").toList

/-- The anchored manifest after one run of the add script. -/
def mAnchoredOut : List Char := (add_history_view_to_xcode mAnchored).getD []

/-- The anchored manifest after a second run of the add script. -/
def mAnchoredOut2 : List Char := (add_history_view_to_xcode mAnchoredOut).getD []

/-- A manifest that already contains a node whose key equals the hard-coded
`file_uuid` of the add script (as any manifest produced by a previous run
would). -/
def mKeyTaken : List Char := (
  "A1B2C3D4E5F6789012345689 /* JoyLabsNative */ = \x7b\n" ++
  "\t\t\tchildren = (\n" ++
  "\t\t\t);\n" ++
  "/* Begin PBXFileReference section */\n" ++
  "\t\tA1B2C3D4E5F6789012345855 /* Other.swift */ = \x7bisa = PBXFileReference; path = Other.swift; \x7d;\n" ++
  "/* End PBXFileReference section */\n").toList

/-- The pre-existing node of `mKeyTaken` that uses the script's key. -/
def mKeyTakenOtherNode : List Char :=
  ("A1B2C3D4E5F6789012345855 /* Other.swift */ = \x7b").toList

/-- The node the script adds, keyed by the same identifier. -/
def hvHistoryNodeHead : List Char :=
  ("A1B2C3D4E5F6789012345855 /* HistoryView.swift */ = \x7b").toList

/-- A counterexample input for the round-trip claims: an array whose last
element carries a trailing comma. -/
def cexTrailingComma : List Char := ("(x,\n);").toList

/-- A counterexample input for the idempotence claim: two commas stacked
before a closing parenthesis. -/
def cexDoubleComma : List Char := (",,);").toList

/-- A concrete uuid value of the shape `str(uuid.uuid4())` produces. -/
def uuidSample : List Char := ("0123abcd-0123-0123-0123-0123456789ab").toList

/-- The output text of the fix transformation on `mRefOtherLabel` (checked against it below). -/
def mRefOtherLabelFixed : List Char := (
  "/* Begin PBXFileReference section */\n" ++
  "\t\t/* End PBXFileReference section */\n" ++
  "\t\tchildren = (\n" ++
  "\t\t\tAAAAAAAAAAAAAAAA00000001 /* Legacy */\n" ++
  "\t\t);\n").toList

/-- The output text of the fix transformation on `mWellFormed` (checked against it below). -/
def mWellFormedFixed : List Char := (
  "/* Begin PBXBuildFile section */\n" ++
  "\t\t\t\tB200000000000000000000AA /* B.swift in Sources */ = \x7bisa = PBXBuildFile; fileRef = A200000000000000000000AA /* B.swift */; \x7d;\n" ++
  "/* End PBXBuildFile section */\n" ++
  "/* Begin PBXFileReference section */\n" ++
  "\t\t\t\tA200000000000000000000AA /* B.swift */ = \x7bisa = PBXFileReference; path = B.swift; \x7d;\n" ++
  "/* End PBXFileReference section */\n" ++
  "\t\t\tchildren = (\n" ++
  "\t\t\t\tA200000000000000000000AA /* B.swift */\n" ++
  "\t\t\t);\n" ++
  "\t\t\tfiles = (\n" ++
  "\t\t\t\tB200000000000000000000AA /* B.swift in Sources */\n" ++
  "\t\t\t);\n").toList

/-- The output text of the add script on `mAnchored` (checked against it below). -/
def mAnchoredOutLit : List Char := (
  "A1B2C3D4E5F6789012345689 /* JoyLabsNative */ = \x7b\n" ++
  "\t\t\tchildren = (\n" ++
  "\t\t\t\tA1B2C3D4E5F6789012345854 /* ScanView.swift */,\n" ++
  "\t\t\t\tA1B2C3D4E5F6789012345855 /* HistoryView.swift */,\n" ++
  "\t\t\t);\n" ++
  "/* Begin PBXFileReference section */\n" ++
  "\t\tA1B2C3D4E5F6789012345854 /* ScanView.swift */ = \x7bisa = PBXFileReference; path = ScanView.swift; \x7d;\n" ++
  "\t\tA1B2C3D4E5F6789012345855 /* HistoryView.swift */ = \x7bisa = PBXFileReference; lastKnownFileType = sourcecode.swift; path = \"JoyLabsNative/Views/HistoryView.swift\"; sourceTree = \"<group>\"; \x7d;\n" ++
  "/* End PBXFileReference section */\n" ++
  "/* Begin PBXBuildFile section */\n" ++
  "\t\tA1B2C3D4E5F6789012345853 /* ScanView.swift in Sources */ = \x7bisa = PBXBuildFile; fileRef = A1B2C3D4E5F6789012345854 /* ScanView.swift */; \x7d;\n" ++
  "\t\tA1B2C3D4E5F6789012345856 /* HistoryView.swift in Sources */ = \x7bisa = PBXBuildFile; fileRef = A1B2C3D4E5F6789012345855 /* HistoryView.swift */; \x7d;\n" ++
  "/* End PBXBuildFile section */\n" ++
  "\t\tF100000000000000000000AA /* Sources */ = \x7b\n" ++
  "\t\t\tfiles = (\n" ++
  "\t\t\t\tA1B2C3D4E5F6789012345853 /* ScanView.swift in Sources */,\n" ++
  "\t\t\t\tA1B2C3D4E5F6789012345856 /* HistoryView.swift in Sources */,\n" ++
  "\t\t\t);\n").toList

/-- The output text of a second run of the add script (checked against it below). -/
def mAnchoredOut2Lit : List Char := (
  "A1B2C3D4E5F6789012345689 /* JoyLabsNative */ = \x7b\n" ++
  "\t\t\tchildren = (\n" ++
  "\t\t\t\tA1B2C3D4E5F6789012345854 /* ScanView.swift */,\n" ++
  "\t\t\t\tA1B2C3D4E5F6789012345855 /* HistoryView.swift */,\n" ++
  "\t\t\t\tA1B2C3D4E5F6789012345855 /* HistoryView.swift */,\n" ++
  "\t\t\t);\n" ++
  "/* Begin PBXFileReference section */\n" ++
  "\t\tA1B2C3D4E5F6789012345854 /* ScanView.swift */ = \x7bisa = PBXFileReference; path = ScanView.swift; \x7d;\n" ++
  "\t\tA1B2C3D4E5F6789012345855 /* HistoryView.swift */ = \x7bisa = PBXFileReference; lastKnownFileType = sourcecode.swift; path = \"JoyLabsNative/Views/HistoryView.swift\"; sourceTree = \"<group>\"; \x7d;\n" ++
  "\t\tA1B2C3D4E5F6789012345855 /* HistoryView.swift */ = \x7bisa = PBXFileReference; lastKnownFileType = sourcecode.swift; path = \"JoyLabsNative/Views/HistoryView.swift\"; sourceTree = \"<group>\"; \x7d;\n" ++
  "/* End PBXFileReference section */\n" ++
  "/* Begin PBXBuildFile section */\n" ++
  "\t\tA1B2C3D4E5F6789012345853 /* ScanView.swift in Sources */ = \x7bisa = PBXBuildFile; fileRef = A1B2C3D4E5F6789012345854 /* ScanView.swift */; \x7d;\n" ++
  "\t\tA1B2C3D4E5F6789012345856 /* HistoryView.swift in Sources */ = \x7bisa = PBXBuildFile; fileRef = A1B2C3D4E5F6789012345855 /* HistoryView.swift */; \x7d;\n" ++
  "\t\tA1B2C3D4E5F6789012345856 /* HistoryView.swift in Sources */ = \x7bisa = PBXBuildFile; fileRef = A1B2C3D4E5F6789012345855 /* HistoryView.swift */; \x7d;\n" ++
  "/* End PBXBuildFile section */\n" ++
  "\t\tF100000000000000000000AA /* Sources */ = \x7b\n" ++
  "\t\t\tfiles = (\n" ++
  "\t\t\t\tA1B2C3D4E5F6789012345853 /* ScanView.swift in Sources */,\n" ++
  "\t\t\t\tA1B2C3D4E5F6789012345856 /* HistoryView.swift in Sources */,\n" ++
  "\t\t\t\tA1B2C3D4E5F6789012345856 /* HistoryView.swift in Sources */,\n" ++
  "\t\t\t);\n").toList

/-- The output text of the add script on `mNoAnchors` (checked against it below). -/
def mNoAnchorsOutLit : List Char := (
  "A1B2C3D4E5F6789012345689 /* JoyLabsNative */ = \x7b\n" ++
  "\t\t\tchildren = (\n" ++
  "\t\t\t);\n" ++
  "/* Begin PBXFileReference section */\n" ++
  "\t\tA1B2C3D4E5F6789012345855 /* HistoryView.swift */ = \x7bisa = PBXFileReference; lastKnownFileType = sourcecode.swift; path = \"JoyLabsNative/Views/HistoryView.swift\"; sourceTree = \"<group>\"; \x7d;\n" ++
  "/* End PBXFileReference section */\n" ++
  "/* Begin PBXBuildFile section */\n" ++
  "\t\tA1B2C3D4E5F6789012345856 /* HistoryView.swift in Sources */ = \x7bisa = PBXBuildFile; fileRef = A1B2C3D4E5F6789012345855 /* HistoryView.swift */; \x7d;\n" ++
  "/* End PBXBuildFile section */\n" ++
  "\t\tF100000000000000000000AA /* Sources */ = \x7b\n" ++
  "\t\t\tfiles = (\n" ++
  "\t\t\t);\n").toList

/-- The output text of the add script on `mKeyTaken` (checked against it below). -/
def mKeyTakenOutLit : List Char := (
  "A1B2C3D4E5F6789012345689 /* JoyLabsNative */ = \x7b\n" ++
  "\t\t\tchildren = (\n" ++
  "\t\t\t);\n" ++
  "/* Begin PBXFileReference section */\n" ++
  "\t\tA1B2C3D4E5F6789012345855 /* Other.swift */ = \x7bisa = PBXFileReference; path = Other.swift; \x7d;\n" ++
  "\t\tA1B2C3D4E5F6789012345855 /* HistoryView.swift */ = \x7bisa = PBXFileReference; lastKnownFileType = sourcecode.swift; path = \"JoyLabsNative/Views/HistoryView.swift\"; sourceTree = \"<group>\"; \x7d;\n" ++
  "/* End PBXFileReference section */\n").toList


/-- A manifest without the JoyLabsNative group: the add script fails on it
(returns `False`) without writing. -/
def mNoGroup : List Char := ("no group here").toList

/-!
General lemmas about the embedded string machinery.
-/

/-- A substitution whose pattern matches nowhere leaves the text unchanged,
whatever the fuel. -/
theorem reSubAux_of_noMatch (t : SubMatcher) :
    ∀ (fuel : Nat) (s : List Char), noMatchB t s = true → reSubAux t fuel s = s := by
  intro fuel
  induction fuel with
  | zero => intro s _; rfl
  | succ n ih =>
    intro s h
    cases s with
    | nil => rfl
    | cons c rest =>
      simp only [noMatchB, Bool.and_eq_true] at h
      obtain ⟨h1, h2⟩ := h
      cases ht : t (c :: rest) with
      | some pr => rw [ht] at h1; simp at h1
      | none => simp only [reSubAux, ht, ih rest h2]

/-- A substitution whose pattern matches nowhere leaves the text unchanged. -/
theorem reSub_of_noMatch (t : SubMatcher) (s : List Char) (h : noMatchB t s = true) :
    reSub t s = s := reSubAux_of_noMatch t s.length s h

/-- If none of a list of substitutions matches anywhere in `s`, running them
all leaves `s` unchanged. -/
theorem runTries_of_noMatch :
    ∀ (ts : List SubMatcher) (s : List Char),
      (ts.all fun t => noMatchB t s) = true → runTries ts s = s := by
  intro ts
  induction ts with
  | nil => intro s _; rfl
  | cons t ts ih =>
    intro s h
    simp only [List.all_cons, Bool.and_eq_true] at h
    obtain ⟨h1, h2⟩ := h
    show List.foldl (fun s t => reSub t s) (reSub t s) ts = s
    rw [reSub_of_noMatch t s h1]
    exact ih s h2

/-- Claim C2 (counterexample): with the removal list empty — zero add and
zero remove operations — the transformation of `fix_xcode_project` is not
the identity: the unconditional trailing-comma cleanup still rewrites a
manifest that has a trailing comma before `);`, so the output is not
byte-identical to the input. -/
theorem claim_C2_counterexample :
    fix_xcode_project_with [] cexTrailingComma ≠ cexTrailingComma ∧
      fix_xcode_project_with [] cexTrailingComma = ("(x\n);").toList := by
  refine ⟨by decide, by decide⟩

/-- Claim C2 (amended): with zero operations the output is byte-identical to
the input exactly on manifests in which the trailing-comma cleanup pattern
(`,` followed by whitespace and `);`) matches nowhere; such trailing commas
are otherwise removed even by an operation-free run. -/
theorem claim_C2_amended (c : List Char) (h : noMatchB cleanupTry c = true) :
    fix_xcode_project_with [] c = c :=
  runTries_of_noMatch (triesFor []) c (by simp [triesFor, h])

/-- Witness for the amended C2 at a concrete comma-free manifest. -/
theorem claim_C2_witness :
    noMatchB cleanupTry (("abc").toList) = true ∧
      fix_xcode_project_with [] (("abc").toList) = ("abc").toList :=
  ⟨by decide, claim_C2_amended (("abc").toList) (by decide)⟩

/-- Claim C10 (counterexample): the full removal-plus-cleanup transformation
is not idempotent on all strings: on `,,);` one application removes only the
innermost trailing comma, a second application removes the next one. -/
theorem claim_C10_counterexample :
    fix_xcode_project (fix_xcode_project cexDoubleComma) ≠ fix_xcode_project cexDoubleComma ∧
      fix_xcode_project cexDoubleComma = (",);").toList ∧
      fix_xcode_project (fix_xcode_project cexDoubleComma) = (");").toList := by
  refine ⟨by decide, by decide, by decide⟩

/-- Claim C10 (amended): the transformation is idempotent exactly on those
inputs whose image contains no residual match of any removal pattern or of
the cleanup pattern; one pass can leave such residual matches (e.g. stacked
trailing commas), and then a second pass rewrites again. -/
theorem claim_C10_amended (s : List Char)
    (h : ((triesFor files_to_remove).all fun t => noMatchB t (fix_xcode_project s)) = true) :
    fix_xcode_project (fix_xcode_project s) = fix_xcode_project s :=
  runTries_of_noMatch (triesFor files_to_remove) (fix_xcode_project s) h

/-- Witness for the amended C10 at a concrete input. -/
theorem claim_C10_witness :
    ((triesFor files_to_remove).all fun t => noMatchB t (fix_xcode_project (("x").toList))) = true ∧
      fix_xcode_project (fix_xcode_project (("x").toList)) = fix_xcode_project (("x").toList) :=
  ⟨by decide, claim_C10_amended (("x").toList) (by decide)⟩

/-- The fix transformation evaluated on `mRefOtherLabel`. -/
theorem fixRefOtherLabel_eq : fix_xcode_project mRefOtherLabel = mRefOtherLabelFixed :=
  eq_of_beq (by decide)

/-- The fix transformation evaluated on `mWellFormed`. -/
theorem fixWellFormed_eq : fix_xcode_project mWellFormed = mWellFormedFixed :=
  eq_of_beq (by decide)

/-- The add script evaluated on `mAnchored`. -/
theorem hvAnchored_eq : add_history_view_to_xcode mAnchored = some mAnchoredOutLit :=
  eq_of_beq (by decide)

/-- The add script evaluated on its own output `mAnchoredOutLit`. -/
theorem hvAnchored2_eq : add_history_view_to_xcode mAnchoredOutLit = some mAnchoredOut2Lit :=
  eq_of_beq (by decide)

/-- The add script evaluated on `mNoAnchors`. -/
theorem hvNoAnchors_eq : add_history_view_to_xcode mNoAnchors = some mNoAnchorsOutLit :=
  eq_of_beq (by decide)

/-- The add script evaluated on `mKeyTaken`. -/
theorem hvKeyTaken_eq : add_history_view_to_xcode mKeyTaken = some mKeyTakenOutLit :=
  eq_of_beq (by decide)

/-- Claim C1 (counterexample): removal does not delete every reference to a
removed node.  On `mRefOtherLabel` the file-reference node for
`CatalogSyncService.swift` is removed, but the children-array reference to
its key (annotated `/* Legacy */` instead of the file name) survives, so a
reference to a removed node remains after a successful removal. -/
theorem claim_C1_counterexample :
    containsSubB mRefOtherLabel mRefOtherLabelNode = true ∧
      fix_xcode_project mRefOtherLabel = mRefOtherLabelFixed ∧
      containsSubB mRefOtherLabelFixed mRefOtherLabelNode = false ∧
      containsSubB mRefOtherLabelFixed mRefOtherLabelChild = true :=
  ⟨by decide, fixRefOtherLabel_eq, by decide, by decide⟩

/-- Claim C1 (amended): removal deletes the matching file-reference and
build-file nodes and every reference to them that carries the standard
`/* label */` annotation with the matching label; on a manifest whose
references all carry matching annotations (`mWellFormed`) no occurrence of
a removed key survives anywhere, while the nodes and references of files
not in the removal list survive. -/
theorem claim_C1_amended :
    fix_xcode_project mWellFormed = mWellFormedFixed ∧
      containsSubB mWellFormed keyA1 = true ∧
      containsSubB mWellFormed keyB1 = true ∧
      containsSubB mWellFormedFixed keyA1 = false ∧
      containsSubB mWellFormedFixed keyB1 = false ∧
      containsSubB mWellFormedFixed keyA2 = true ∧
      containsSubB mWellFormedFixed keyB2 = true :=
  ⟨fixWellFormed_eq, by decide, by decide, by decide, by decide, by decide, by decide⟩

/-- Claim C3 (code bug): key generation performs no scan against existing
keys.  `add_history_view_to_xcode` always uses the hard-coded key
`A1B2C3D4E5F6789012345855`; run on a manifest that already contains a node
with that key, it succeeds and the output holds two node definitions with
the same key, violating key uniqueness. -/
theorem claim_C3_bug :
    containsSubB mKeyTaken hvFileUuid = true ∧
      (add_history_view_to_xcode mKeyTaken).isSome = true ∧
      containsSubB ((add_history_view_to_xcode mKeyTaken).getD []) mKeyTakenOtherNode = true ∧
      containsSubB ((add_history_view_to_xcode mKeyTaken).getD []) hvHistoryNodeHead = true := by
  refine ⟨by decide, ?_, ?_, ?_⟩ <;>
    simp only [hvKeyTaken_eq, Option.getD_some, Option.isSome_some] <;> decide

/-- Claim C4 (counterexample): on `mNoAnchors` — a manifest containing the
target group (with its children array) and the Sources build phase (with
its files array) — the add script reports success, yet the build phase's
files list gains no entry and the group's children list gains no entry; the
build-file node alone is created.  So a successful add does not append to
the children and files lists. -/
theorem claim_C4_counterexample :
    containsSubB mNoAnchors mainGroupPat = true ∧
      containsSubB mNoAnchors sourcesPat = true ∧
      containsSubB mNoAnchors filesLit = true ∧
      (add_history_view_to_xcode mNoAnchors).isSome = true ∧
      countSub ((add_history_view_to_xcode mNoAnchors).getD []) hvSourceEntry = 0 ∧
      countSub ((add_history_view_to_xcode mNoAnchors).getD []) hvChildEntry = 0 ∧
      countSub ((add_history_view_to_xcode mNoAnchors).getD []) hvBuildRef = 1 := by
  refine ⟨by decide, by decide, by decide, ?_, ?_, ?_, ?_⟩ <;>
    simp only [hvNoAnchors_eq, Option.getD_some, Option.isSome_some] <;> decide

/-- Claim C4 (amended): when the ScanView anchor entries are present
(`mAnchored`), a successful add creates exactly one file-reference node and
one build-file node and inserts exactly one new children entry and exactly
one new build-phase files entry: the file key (absent before) occurs exactly
3 times after (node definition, children entry, `fileRef` field) and the
build key exactly 2 times (node definition, files entry). -/
theorem claim_C4_amended :
    countSub mAnchored hvFileUuid = 0 ∧
      countSub mAnchored hvBuildUuid = 0 ∧
      (add_history_view_to_xcode mAnchored).isSome = true ∧
      countSub mAnchoredOut hvFileUuid = 3 ∧
      countSub mAnchoredOut hvBuildUuid = 2 ∧
      countSub mAnchoredOut hvChildEntry = 1 ∧
      countSub mAnchoredOut hvSourceEntry = 1 := by
  refine ⟨by decide, by decide, ?_, ?_, ?_, ?_, ?_⟩ <;>
    simp only [mAnchoredOut, hvAnchored_eq, Option.getD_some, Option.isSome_some] <;> decide

/-- Claim C5 (counterexample): adding the same label twice does not fail the
second call and does not leave the manifest unchanged: after one successful
add of HistoryView.swift (`mAnchoredOut`, which contains its file-reference
node), a second run still succeeds and produces a different manifest. -/
theorem claim_C5_counterexample :
    containsSubB mAnchoredOut hvFileRef = true ∧
      (add_history_view_to_xcode mAnchoredOut).isSome = true ∧
      mAnchoredOut2 ≠ mAnchoredOut := by
  refine ⟨?_, ?_, ?_⟩
  · simp only [mAnchoredOut, hvAnchored_eq, Option.getD_some]; decide
  · simp only [mAnchoredOut, hvAnchored_eq, Option.getD_some, hvAnchored2_eq,
      Option.isSome_some]
  · simp only [mAnchoredOut2, mAnchoredOut, hvAnchored_eq, Option.getD_some, hvAnchored2_eq]
    intro h
    exact absurd (beq_iff_eq.mpr h) (by decide)

/-- Claim C5 (amended): the scripts perform no duplicate detection: adding a
label already present in the target group succeeds again and inserts a
second copy of the file-reference node and of the build-file node (with the
same hard-coded keys), instead of failing with `DuplicateFile` and leaving
the manifest unchanged. -/
theorem claim_C5_amended :
    countSub mAnchoredOut hvFileRef = 1 ∧
      countSub mAnchoredOut hvBuildRef = 1 ∧
      countSub mAnchoredOut2 hvFileRef = 2 ∧
      countSub mAnchoredOut2 hvBuildRef = 2 := by
  refine ⟨?_, ?_, ?_, ?_⟩ <;>
    simp only [mAnchoredOut2, mAnchoredOut, hvAnchored_eq, Option.getD_some, hvAnchored2_eq] <;>
    decide

/-- Claim C6 (amended): runs of the add script that report failure (missing
project file, missing group, missing children array) leave the file
untouched: whenever the returned flag is `false`, the file after the run
equals the file before it. -/
theorem claim_C6_amended (disk : Option (List Char))
    (h : (add_history_view_run disk).1 = false) :
    (add_history_view_run disk).2 = disk := by
  cases disk with
  | none => rfl
  | some c =>
    cases hr : add_history_view_to_xcode c with
    | none => simp [add_history_view_run, hr]
    | some out => simp [add_history_view_run, hr] at h

/-- Witness for the amended C6: a run on a missing file reports failure and
leaves the (absent) file untouched. -/
theorem claim_C6_witness :
    (add_history_view_run none).1 = false ∧ (add_history_view_run none).2 = none :=
  ⟨by decide, claim_C6_amended none (by decide)⟩

/-- Claim C6 (counterexample): a missing insertion anchor does not abort the
batch before the write: on `mNoAnchors` (whose ScanView anchors are absent)
the script writes a modified — partially edited — manifest (nodes inserted,
group children and build-phase files not updated) and reports success, so a
failed mid-batch operation does not leave the original file untouched. -/
theorem claim_C6_counterexample :
    (add_history_view_run (some mNoAnchors)).1 = true ∧
      (add_history_view_run (some mNoAnchors)).2 ≠ some mNoAnchors ∧
      containsSubB (((add_history_view_run (some mNoAnchors)).2).getD []) hvChildEntry = false ∧
      containsSubB (((add_history_view_run (some mNoAnchors)).2).getD []) hvFileRef = true := by
  refine ⟨?_, ?_, ?_, ?_⟩
  · simp only [add_history_view_run, hvNoAnchors_eq]
  · simp only [add_history_view_run, hvNoAnchors_eq]
    intro h
    rw [Option.some_inj] at h
    exact absurd (beq_iff_eq.mpr h) (by decide)
  · simp only [add_history_view_run, hvNoAnchors_eq, Option.getD_some]; decide
  · simp only [add_history_view_run, hvNoAnchors_eq, Option.getD_some]; decide

/-- Claim C8 (counterexample): a failing run does not terminate with a
non-zero exit code: on a manifest without the target group the add-history
script returns `False`, but its `__main__` block discards the result, so
the process exits with code 0. -/
theorem claim_C8_counterexample :
    (add_history_view_run (some mNoGroup)).1 = false ∧
      add_history_view_main (some mNoGroup) = 0 :=
  ⟨by decide, rfl⟩

/-- Claim C8 (amended): only the modal-files script maps its boolean outcome
to the exit code (`0` on success, `1` on failure); the add-history script
always exits 0 whatever the outcome, and the add-files script exits 0 on
every returning path (non-zero only when the `StopIteration` crash
escapes). -/
theorem claim_C8_amended :
    add_modal_files_main true = 0 ∧
      add_modal_files_main false = 1 ∧
      (∀ disk : Option (List Char), add_history_view_main disk = 0) ∧
      add_files_main mNoGroup (fun _ => uuidSample) (fun _ _ => uuidSample) = 0 :=
  ⟨rfl, rfl, fun _ => rfl, by decide⟩

/-- Claim C9: whenever the required finds of the add-history script succeed
(group pattern, `children = (`, `);`), the script returns `True` and writes,
even if the ScanView insertion anchors are missing; and concretely on
`mNoAnchors` (which carries both section markers but no anchors) it reports
success while inserting neither the group-children entry nor the build-phase
files entry — a reported success does not imply those insertions happened. -/
theorem claim_C9 :
    (∀ (c : List Char) (i j : Nat),
        pyFind c mainGroupPat = some i →
        pyFindFrom c childrenLitStr i = some j →
        (pyFindFrom c litCloseParenSemi j).isSome = true →
        containsSubB c scanviewChildRef = false →
        containsSubB c scanviewSourceRef = false →
        (add_history_view_to_xcode c).isSome = true) ∧
      containsSubB mNoAnchors beginFRMarker = true ∧
      containsSubB mNoAnchors endFRMarker = true ∧
      containsSubB mNoAnchors beginBFMarker = true ∧
      containsSubB mNoAnchors endBFMarker = true ∧
      containsSubB mNoAnchors scanviewChildRef = false ∧
      containsSubB mNoAnchors scanviewSourceRef = false ∧
      (add_history_view_to_xcode mNoAnchors).isSome = true ∧
      containsSubB ((add_history_view_to_xcode mNoAnchors).getD []) hvChildEntry = false ∧
      containsSubB ((add_history_view_to_xcode mNoAnchors).getD []) hvSourceEntry = false := by
  refine ⟨?_, by decide, by decide, by decide, by decide, by decide, by decide, ?_, ?_, ?_⟩
  · intro c i j h1 h2 h3 _ _
    obtain ⟨ce, hce⟩ := Option.isSome_iff_exists.mp h3
    unfold add_history_view_to_xcode
    simp only [h1, h2, hce, Option.isSome_some]
  all_goals simp only [hvNoAnchors_eq, Option.getD_some, Option.isSome_some] <;> decide

/-- Witness for C9: the universally quantified part applied at `mNoAnchors`
itself, with the find hypotheses discharged by computation. -/
theorem claim_C9_witness :
    (add_history_view_to_xcode mNoAnchors).isSome = true :=
  claim_C9.1 mNoAnchors 0 52 (by decide) (by decide) (by decide) (by decide) (by decide)

/-- A successful Bool prefix test yields a decomposition. -/
theorem isPrefixOfB_exists :
    ∀ (sub s : List Char), isPrefixOfB sub s = true → ∃ r, s = sub ++ r := by
  intro sub
  induction sub with
  | nil => intro s _; exact ⟨s, rfl⟩
  | cons l ls ih =>
    intro s h
    cases s with
    | nil => simp [isPrefixOfB] at h
    | cons c cs =>
      simp only [isPrefixOfB, Bool.and_eq_true] at h
      obtain ⟨h1, h2⟩ := h
      obtain ⟨r, hr⟩ := ih cs h2
      refine ⟨r, ?_⟩
      rw [List.cons_append, eq_of_beq h1, hr]

/-- A successful find yields a substring decomposition. -/
theorem findSubAux_exists (sub : List Char) :
    ∀ (s : List Char) (i j : Nat), findSubAux sub s i = some j → ∃ p r, s = p ++ sub ++ r := by
  intro s
  induction s with
  | nil =>
    intro i j h
    by_cases hp : isPrefixOfB sub [] = true
    · obtain ⟨r, hr⟩ := isPrefixOfB_exists sub [] hp
      exact ⟨[], r, by simpa using hr⟩
    · simp only [findSubAux] at h
      rw [if_neg hp] at h
      exact absurd h (by simp)
  | cons c cs ih =>
    intro i j h
    by_cases hp : isPrefixOfB sub (c :: cs) = true
    · obtain ⟨r, hr⟩ := isPrefixOfB_exists sub (c :: cs) hp
      exact ⟨[], r, by simpa using hr⟩
    · simp only [findSubAux] at h
      rw [if_neg hp] at h
      obtain ⟨p, r, hr⟩ := ih (i + 1) j h
      exact ⟨c :: p, r, by simp [hr]⟩

/-- Python `sub in s` implies `s = p ++ sub ++ r` for some `p`, `r`. -/
theorem containsSubB_exists (s sub : List Char) (h : containsSubB s sub = true) :
    ∃ p r, s = p ++ sub ++ r := by
  unfold containsSubB pyFind at h
  obtain ⟨j, hj⟩ := Option.isSome_iff_exists.mp h
  exact findSubAux_exists sub s 0 j hj

/-- A lowercase hex digit is not a dash. -/
theorem hex_ne_dash {ch : Char} (h : isLowerHexDigit ch = true) : (ch == '-') = false := by
  cases hd : ch == '-'
  · rfl
  · rw [eq_of_beq hd] at h
    exact absurd h (by decide)

/-- A lowercase hex digit is one of the sixteen hex characters. -/
theorem hex_mem_chars {ch : Char} (h : isLowerHexDigit ch = true) : ch ∈ lowerHexChars := by
  unfold isLowerHexDigit at h
  exact List.elem_iff.mp h

/-- Uppercasing a lowercase hex digit never yields a dash. -/
theorem charUpper_ne_dash {ch : Char} (h : isLowerHexDigit ch = true) :
    charUpper ch ≠ '-' := by
  have hm := hex_mem_chars h
  fin_cases hm <;> decide

/-- Stripping the dashes from a uuid4 string leaves its 32 hex digits. -/
theorem uuid4Format_stripDash {u : List Char} (h : uuid4Format u) :
    ∃ l : List Char, stripDash u = l ∧ l.length = 32 ∧ l.all isLowerHexDigit = true := by
  obtain ⟨a, b, c, d, e, rfl, ha, hb, hc, hd, he, hall⟩ := h
  have hparts : ∀ l : List Char, l.all isLowerHexDigit = true →
      List.filter (fun c => !(c == '-')) l = l := by
    intro l hl
    rw [List.filter_eq_self]
    intro x hx
    rw [hex_ne_dash (List.all_eq_true.mp hl x hx)]
    rfl
  have h5 : (a ++ b ++ c ++ d ++ e).all isLowerHexDigit = true := hall
  simp only [List.all_append, Bool.and_eq_true] at h5
  obtain ⟨⟨⟨⟨ha', hb'⟩, hc'⟩, hd'⟩, he'⟩ := h5
  refine ⟨a ++ b ++ c ++ d ++ e, ?_, ?_, hall⟩
  · unfold stripDash
    simp [List.filter_append, hparts a ha', hparts b hb', hparts c hc', hparts d hd',
      hparts e he', List.append_assoc]
  · simp [List.length_append, ha, hb, hc, hd, he]

/-- The generated key of a uuid4 string has exactly 24 characters. -/
theorem genKey_length {u : List Char} (h : uuid4Format u) : (genKey u).length = 24 := by
  obtain ⟨l, hl, hlen, _⟩ := uuid4Format_stripDash h
  unfold genKey
  rw [hl, List.length_take, List.length_map, hlen]
  decide

/-- The generated key of a uuid4 string contains no dash. -/
theorem genKey_no_dash {u : List Char} (h : uuid4Format u) : '-' ∈ genKey u → False := by
  intro hm
  obtain ⟨l, hl, _, hall⟩ := uuid4Format_stripDash h
  unfold genKey at hm
  rw [hl] at hm
  have hm2 : '-' ∈ l.map charUpper := List.mem_of_mem_take hm
  obtain ⟨x, hx, hxe⟩ := List.mem_map.mp hm2
  exact charUpper_ne_dash (List.all_eq_true.mp hall x hx) hxe

/-- The heart of C7: a 24-character dash-free string never occurs inside a
uuid4-shaped string, because every 24-character window of the 36-character
uuid string straddles the dash at position 13. -/
theorem uuid_no_key_occurrence {u k : List Char} (hu : uuid4Format u) (hk : k.length = 24)
    (hd : '-' ∈ k → False) : containsSubB u k = false := by
  cases hc : containsSubB u k
  · rfl
  · exfalso
    obtain ⟨p, r, hpr⟩ := containsSubB_exists u k hc
    obtain ⟨ua, ub, uc, ud, ue, hu', ha, hb, hcl, hdl, hel, _⟩ := hu
    have h13 : u = (ua ++ '-' :: ub) ++ '-' :: (uc ++ '-' :: (ud ++ '-' :: ue)) := by
      rw [hu']; simp
    have hlen13 : (ua ++ '-' :: ub).length = 13 := by
      simp [List.length_append, ha, hb]
    have hulen : u.length = 36 := by
      rw [hu']; simp [List.length_append, ha, hb, hcl, hdl, hel]
    have hplen : p.length ≤ 12 := by
      have hl := congrArg List.length hpr
      rw [hulen] at hl
      simp only [List.length_append, hk] at hl
      omega
    have heq : p ++ (k ++ r) = (ua ++ '-' :: ub) ++ '-' :: (uc ++ '-' :: (ud ++ '-' :: ue)) := by
      rw [← List.append_assoc, ← hpr, h13]
    rcases List.append_eq_append_iff.mp heq with ⟨m, hm1, hm2⟩ | ⟨q, hq1, _⟩
    · have hmlen : m.length ≤ 13 := by
        have hl : (13 : Nat) = p.length + m.length := by
          rw [← hlen13, hm1, List.length_append]
        omega
      rcases List.append_eq_append_iff.mp hm2 with ⟨m', hm1', _⟩ | ⟨k', hk1', hk2'⟩
      · have hl := congrArg List.length hm1'
        rw [List.length_append, hk] at hl
        omega
      · cases k' with
        | nil =>
          have hl := congrArg List.length hk1'
          rw [List.length_append, List.length_nil, hk] at hl
          omega
        | cons x xs =>
          rw [List.cons_append] at hk2'
          have hx : '-' = x := by
            injection hk2' with hx1 _
          apply hd
          rw [hk1', ← hx]
          simp
    · have hl := congrArg List.length hq1
      rw [List.length_append, hlen13] at hl
      omega

/-- The generator expression of the add-files script never yields an
element: each membership test compares a 24-character dash-free key against
a fresh uuid4 string, and always fails. -/
theorem genLookupGo_none {key : List Char} {ts : Nat → List Char}
    (hk : key.length = 24) (hd : '-' ∈ key → False)
    (hts : ∀ j, uuid4Format (ts j)) :
    ∀ (l : List (List Char)) (j : Nat), genLookupGo key ts l j = none := by
  intro l
  induction l with
  | nil => intro j; rfl
  | cons f fs ih =>
    intro j
    simp only [genLookupGo]
    rw [uuid_no_key_occurrence (hts j) hk hd]
    simpa using ih (j + 1)

/-- Claim C7: in the add-files script the recovery of a file name from a
freshly generated random identifier cannot succeed: for every manifest and
all uuid4-shaped random draws, the generator's membership test finds no
match, so `next()` raises `StopIteration`; consequently the function either
returns `False` early or crashes — it never completes a run. -/
theorem claim_C7 (content : List Char) (us : Nat → List Char) (ts : Nat → Nat → List Char)
    (hus : ∀ n, uuid4Format (us n)) (hts : ∀ i j, uuid4Format (ts i j)) :
    genLookupGo (genKey (us 0)) (ts 0) files_to_add 0 = none ∧
      (add_files_to_xcode_project content us ts = AFResult.fail ∨
        add_files_to_xcode_project content us ts = AFResult.crash) := by
  have hlook : ∀ i j, genLookupGo (genKey (us 0)) (ts i) files_to_add j = none := fun i j =>
    genLookupGo_none (genKey_length (hus 0)) (genKey_no_dash (hus 0)) (hts i) files_to_add j
  refine ⟨hlook 0 0, ?_⟩
  unfold add_files_to_xcode_project
  cases h1 : pyFind content dbGroupPat with
  | none => simp [h1]
  | some gs =>
    cases h2 : pyFindFrom content childrenLitStr gs with
    | none => simp [h1, h2]
    | some cs =>
      cases h3 : pyFindFrom content litCloseParenSemi cs with
      | none => simp [h1, h2, h3]
      | some ce =>
        right
        have hsnd : (afGenAux us files_to_add 0).2 =
            [genKey (us 0), genKey (us 2), genKey (us 4)] := by
          simp [afGenAux, files_to_add]
        simp only [h1, h2, h3, hsnd, afChildrenLoop, hlook 0 0]

/-- The sample uuid value is uuid4-shaped. -/
theorem uuidSample_format : uuid4Format uuidSample :=
  ⟨("0123abcd").toList, ("0123").toList, ("0123").toList, ("0123").toList,
    ("0123456789ab").toList, by decide, by decide, by decide, by decide, by decide, by decide,
    by decide⟩

/-- Witness for C7 at a concrete manifest and a concrete uuid4 stream. -/
theorem claim_C7_witness :
    genLookupGo (genKey uuidSample) (fun _ => uuidSample) files_to_add 0 = none ∧
      (add_files_to_xcode_project mNoGroup (fun _ => uuidSample) (fun _ _ => uuidSample) = AFResult.fail ∨
        add_files_to_xcode_project mNoGroup (fun _ => uuidSample) (fun _ _ => uuidSample) = AFResult.crash) :=
  claim_C7 mNoGroup (fun _ => uuidSample) (fun _ _ => uuidSample)
    (fun _ => uuidSample_format) (fun _ _ => uuidSample_format)
